import Mathlib

/-!
Formal model of the pyRAPL measurement core
(src/pyRAPL/measurement.py and src/pyRAPL/outputs/printoutput.py).

Python numbers are modelled by `ℚ` (exact real-number semantics; the spec
tolerates floating rounding, and none of the properties below depend on
binary floating-point artefacts).  Nanosecond timestamps and raw counter
readings are `ℤ`, as in the source.  A Python call that can raise is
modelled by `Except PyError _`; a raised exception is `.error`.

`math.sqrt` / `pandas.Series.std`'s square root is irrational in general,
so the statistical functions are parametrised by a square-root function
`s : ℚ → ℚ`; every theorem that needs a value of `s` hypothesises exactly
the values a real square root would give on the inputs that occur (for
example `s 0 = 0`, `s 1 = 1`), which keeps the development computable.
-/

/-- Exception classes raised by the modelled code paths. -/
inductive PyError where
  | typeError
  | valueError (msg : String)
  | importError (msg : String)
  | attributeError (msg : String)
  | nameError (msg : String)
deriving DecidableEq, Repr

/-- Line 30, `empty_energy_result`: `functools.reduce(lambda acc, x: acc or (x >= 0), energy_result, False)`.
Returns `false` iff the list contains only negative numbers. -/
def empty_energy_result (energy_result : List ℤ) : Bool :=
  energy_result.foldl (fun acc x => acc || decide (0 ≤ x)) false

/-- The sentinel rule applied inline in `Measurement.end` (lines 91-97):
`pkg if empty_energy_result(pkg) else None`. -/
def sentinelFilter (l : List ℤ) : Option (List ℤ) :=
  if empty_energy_result l then some l else none

/-- Python slice `l[0::2]`: elements at even indices. -/
def evenIdx : List α → List α
  | [] => []
  | [a] => [a]
  | a :: _ :: rest => a :: evenIdx rest

/-- Python slice `l[1::2]`: elements at odd indices. -/
def oddIdx : List α → List α
  | [] => []
  | _ :: rest => evenIdx rest

/-- Everything the sensor and the clock return across one `begin()`/`end()`
pair: `_ts_begin`, `_energy_begin` (line 66-67) and `ts_end`, `energy_end`
(line 85-86).  Counter snapshots are interleaved `[pkg0, dram0, pkg1, …]`. -/
structure SessionData where
  tsBegin : ℤ
  snapBegin : List ℤ
  tsEnd : ℤ
  snapEnd : List ℤ
deriving DecidableEq, Repr

/-- Line 88: `delta = energy_end - self._energy_begin`, elementwise. -/
def energyDelta (snapBegin snapEnd : List ℤ) : List ℤ :=
  List.zipWith (fun e b => e - b) snapEnd snapBegin

/-- `Measurement.end` (lines 81-99): duration, then the even-indexed
sub-sequence of the delta as the package series and the odd-indexed one as
the DRAM series, each passed through the sentinel rule. -/
def measurementEnd (sd : SessionData) : ℤ × Option (List ℤ) × Option (List ℤ) :=
  let delta := energyDelta sd.snapBegin sd.snapEnd
  (sd.tsEnd - sd.tsBegin, sentinelFilter (evenIdx delta), sentinelFilter (oddIdx delta))

/-- Modelled from the spec: the `Result` record type (`pyRAPL.Result`, a
dataclass of the repository that is not under src/; §3 ResultRecord): label,
timestamp and duration in seconds, optional per-socket package/DRAM energy
and the matching optional confidence half-widths. -/
structure Result where
  label : String
  timestamp : ℚ
  duration : ℚ
  pkg : Option (List ℚ)
  dram : Option (List ℚ)
  duration_conf : Option ℚ
  pkg_conf : Option (List ℚ)
  dram_conf : Option (List ℚ)
deriving DecidableEq, Repr

/-- Modelled from the spec: the scaling operation `record / n` of the
`Result` class (not under src/; §4.2): same label/timestamp, `duration / n`,
each element of `pkg`/`dram` divided by `n`, confidence fields passed
through unscaled. -/
def resultDiv (r : Result) (n : ℚ) : Result :=
  { r with
    duration := r.duration / n
    pkg := r.pkg.map (fun l => l.map (fun x => x / n))
    dram := r.dram.map (fun l => l.map (fun x => x / n)) }

/-- `Measurement.create_result` (lines 101-113).  The body evaluates
`duration_conf / 1000000000` unconditionally; in Python `None / 1000000000`
raises `TypeError`, so a call that leaves `duration_conf` at its default
`None` raises before any `Result` is constructed. -/
def create_result (label : String) (ts_begin duration : ℚ)
    (pkg dram : Option (List ℚ)) (duration_conf : Option ℚ)
    (pkg_conf dram_conf : Option (List ℚ)) : Except PyError Result :=
  match duration_conf with
  | none => .error .typeError
  | some dc =>
      .ok { label := label
            timestamp := ts_begin / 1000000000
            duration := duration / 1e9
            pkg := pkg
            dram := dram
            duration_conf := some (dc / 1000000000)
            pkg_conf := pkg_conf
            dram_conf := dram_conf }

/-- The `Measurement` object's result storage.  `__init__` (lines 48-51)
never binds `_results`, so the attribute starts unbound (`none`); the
`result` property's guard compares it to `None` (`some none`) once bound. -/
structure Measurement where
  label : String
  resultsAttr : Option (Option Result)
deriving DecidableEq, Repr

/-- `Measurement.__init__`: the `_results` attribute is left unbound. -/
def Measurement.make (label : String) : Measurement :=
  { label := label, resultsAttr := none }

/-- The `result` property (lines 53-60).  Reading the unbound attribute
raises `AttributeError` from the attribute lookup itself; a bound `None`
raises the explicit `AttributeError("No result measured yet.")`. -/
def Measurement.resultProp (m : Measurement) : Except PyError Result :=
  match m.resultsAttr with
  | none => .error (.attributeError "Measurement object has no attribute _results")
  | some none => .error (.attributeError "No result measured yet.")
  | some (some r) => .ok r

/-- `create_result` as a state transition on the `Measurement` object:
on success the constructed `Result` is stored in `_results` (line 104). -/
def Measurement.createResult (m : Measurement) (ts_begin duration : ℚ)
    (pkg dram : Option (List ℚ)) (duration_conf : Option ℚ)
    (pkg_conf dram_conf : Option (List ℚ)) : Except PyError Measurement :=
  (create_result m.label ts_begin duration pkg dram duration_conf pkg_conf dram_conf).map
    (fun r => { m with resultsAttr := some (some r) })

/-- The pandas DataFrame built by the confidence loop (lines 186-199):
columns `Duration, Pkg_0..Pkg_{k-1}, Dram_0..Dram_{m-1}`, with `k`/`m`
fixed from run 0, and one row `(dur, *pkg, *dram)` per run. -/
structure SampleTable where
  pkgCount : ℕ
  dramCount : ℕ
  rows : List (ℤ × List ℤ × List ℤ)
deriving DecidableEq, Repr

/-- The `Duration` column, as the floats pandas aggregates. -/
def colDuration (t : SampleTable) : List ℚ :=
  t.rows.map (fun r => (r.1 : ℚ))

/-- The `Pkg_j` column. -/
def colPkg (t : SampleTable) (j : ℕ) : List ℚ :=
  t.rows.map (fun r => ((r.2.1.getD j 0 : ℤ) : ℚ))

/-- The `Dram_j` column. -/
def colDram (t : SampleTable) (j : ℕ) : List ℚ :=
  t.rows.map (fun r => ((r.2.2.getD j 0 : ℤ) : ℚ))

/-- `Series.mean`: arithmetic mean of a column. -/
def seriesMean (xs : List ℚ) : ℚ :=
  xs.sum / xs.length

/-- The sample variance behind `Series.std` (pandas default `ddof=1`,
denominator `n - 1`).  `std` itself is its square root.  For `n ≤ 1` the
`ℚ` convention `x / 0 = 0` stands in for pandas' NaN; no theorem below
relies on that case. -/
def sampleVar (xs : List ℚ) : ℚ :=
  (xs.map (fun x => (x - seriesMean xs) * (x - seriesMean xs))).sum / ((xs.length : ℚ) - 1)

/-- `_compute_stats` (lines 137-168), parametrised by the square-root
function `s` (used by `Series.std` and by `denom = sqrt(df.count(axis=0)[0])`).
Components, in the tuple order passed to `create_result`:
std of the Duration column (line 162 — the std, not the mean), per-column
Pkg and Dram means, `1.96 * std / denom` for Duration, Pkg and Dram. -/
def compute_stats (s : ℚ → ℚ) (t : SampleTable) :
    ℚ × List ℚ × List ℚ × ℚ × List ℚ × List ℚ :=
  let denom := s ((t.rows.length : ℚ))
  ((s (sampleVar (colDuration t)),
    (List.range t.pkgCount).map (fun j => seriesMean (colPkg t j)),
    (List.range t.dramCount).map (fun j => seriesMean (colDram t j)),
    1.96 * s (sampleVar (colDuration t)) / denom,
    (List.range t.pkgCount).map (fun j => 1.96 * s (sampleVar (colPkg t j)) / denom),
    (List.range t.dramCount).map (fun j => 1.96 * s (sampleVar (colDram t j)) / denom)))

/-- One `df.iloc[i] = dur, *pkg, *dram` assignment (line 199): unpacking
`None` raises `TypeError`; a tuple whose length disagrees with the column
schema makes pandas raise `ValueError`. -/
def buildRow (ncols : ℕ) (run : ℤ × Option (List ℤ) × Option (List ℤ)) :
    Except PyError (ℤ × List ℤ × List ℤ) :=
  match run with
  | (dur, some p, some d) =>
      if 1 + p.length + d.length = ncols then .ok (dur, p, d)
      else .error (.valueError "cannot set a row with mismatched columns")
  | _ => .error .typeError

/-- The row assignments of the confidence loop, in iteration order. -/
def buildRows (ncols : ℕ) (runs : ℕ → SessionData) :
    List ℕ → Except PyError (List (ℤ × List ℤ × List ℤ))
  | [] => .ok []
  | i :: rest =>
      (buildRow ncols (measurementEnd (runs i))).bind (fun row =>
        (buildRows ncols runs rest).bind (fun rows => .ok (row :: rows)))

/-- The `method == "confidence"` branch of `wrapper_measure`
(lines 186-201), with `runs i` the session data of iteration `i`.  The
schema is fixed from run 0 (`len(pkg)` on `None` raises `TypeError`); with
`number = 0` the loop never binds `df` and line 201 raises `NameError`;
`create_result` receives the stats tuple, so `self._ts_begin` is the last
iteration's begin timestamp. -/
def confidenceBranch (s : ℚ → ℚ) (number : ℕ) (label : String)
    (runs : ℕ → SessionData) : Except PyError Result :=
  if number = 0 then .error (.nameError "df")
  else
    match (measurementEnd (runs 0)).2.1, (measurementEnd (runs 0)).2.2 with
    | some p0, some d0 =>
        (buildRows (1 + p0.length + d0.length) runs (List.range number)).bind
          (fun rows =>
            let t : SampleTable := ⟨p0.length, d0.length, rows⟩
            let st := compute_stats s t
            create_result label ((runs (number - 1)).tsBegin : ℚ) st.1
              (some st.2.1) (some st.2.2.1) (some st.2.2.2.1)
              (some st.2.2.2.2.1) (some st.2.2.2.2.2))
    | _, _ => .error .typeError

/-- The `method == "global"` branch of `wrapper_measure` (lines 174-179):
one session brackets all `number` invocations, then
`create_result(*sensor.end())` and `sensor._results / number`.  An `.ok`
value models the record reaching `sensor.export()` (line 205). -/
def globalBranch (number : ℕ) (label : String) (sd : SessionData) :
    Except PyError Result :=
  (create_result label (sd.tsBegin : ℚ) ((measurementEnd sd).1 : ℚ)
      ((measurementEnd sd).2.1.map (fun l => l.map (fun z => (z : ℚ))))
      ((measurementEnd sd).2.2.map (fun l => l.map (fun z => (z : ℚ))))
      none none none).bind
    (fun r => .ok (resultDiv r (number : ℚ)))

/-- `wrapper_measure` (lines 170-206).  `pandasAvailable` is whether
`import pandas` succeeds at call time (lines 181-184); `runs i` is the
session data of the i-th begin/end pair (the global branch performs a
single bracket, `runs 0`).  The returned `.ok` record is what
`sensor.export()` hands to the output sink; `.error` is an exception
propagating before any export. -/
def wrapper_measure (s : ℚ → ℚ) (pandasAvailable : Bool) (method : String)
    (number : ℕ) (label : String) (runs : ℕ → SessionData) :
    Except PyError Result :=
  if method = "global" then globalBranch number label (runs 0)
  else if method = "confidence" then
    if pandasAvailable then confidenceBranch s number label runs
    else .error (.importError "You need Pandas to use this method")
  else .error (.valueError "Unknown measurement method.")

/-- The top-level imports of src/pyRAPL/measurement.py (lines 20-27):
`functools`, `time`, `pandas`, `pyRAPL` (for `Result`), `pyRAPL.outputs`.
`import pandas as pd` at line 24 is unconditional. -/
def module_imports : List String :=
  ["functools", "time", "pandas", "pyRAPL", "pyRAPL.outputs"]

/-- Loading the measurement module: the first import whose module is not
available raises `ImportError`. -/
def importMeasurementModule (available : List String) : Except PyError Unit :=
  match module_imports.find? (fun m => !(available.contains m)) with
  | some m => .error (.importError ("No module named " ++ m))
  | none => .ok ()

/-- A decorated call as the interpreter sees it: the module must load
before `wrapper_measure` can run; the dynamic pandas check inside the
confidence branch sees the same availability. -/
def runViaModule (available : List String) (s : ℚ → ℚ) (method : String)
    (number : ℕ) (label : String) (runs : ℕ → SessionData) :
    Except PyError Result :=
  (importMeasurementModule available).bind
    (fun _ => wrapper_measure s (available.contains "pandas") method number label runs)

/-- Stands for the scientific-notation float rendering (`.4e` format and
the `e` conversion); only definedness matters to the properties below,
never the digits. -/
def fmtSci (q : ℚ) : String :=
  toString q

/-- Stands for `time.ctime`: a human-readable rendering of a timestamp. -/
def ctimeStr (q : ℚ) : String :=
  toString q

/-- `print_energy` (printoutput.py lines 26-33).  The entries reaching it
are the statistical means (floats), so the `isinstance(energy, float)`
branch applies; the integer branch differs only in the rendering, both
branches succeed on any number. -/
def print_energy (energies : List (ℚ × ℚ)) : String :=
  (energies.enum.map
      (fun p => "\n\tsocket " ++ toString p.1 ++ " : " ++ fmtSci (p.2.1 / 1e6)
        ++ " J (+-" ++ fmtSci (p.2.2 / 1e6) ++ ")")).foldl (fun a b => a ++ b) ""

/-- The PKG block of `PrintOutput._format_output` (line 55-56): skipped
when `result.pkg is None`; otherwise `zip(result.pkg, result.pkg_conf)`
raises `TypeError` when `pkg_conf` is `None`. -/
def pkgSection (r : Result) : Except PyError String :=
  match r.pkg with
  | none => .ok ""
  | some l =>
      match r.pkg_conf with
      | none => .error .typeError
      | some cl =>
          .ok ("\n-------------------------------\nPKG :" ++ print_energy (l.zip cl))

/-- The DRAM block (lines 57-59), with the trailing separator that the
source appends only inside this branch. -/
def dramSection (r : Result) : Except PyError String :=
  match r.dram with
  | none => .ok ""
  | some l =>
      match r.dram_conf with
      | none => .error .typeError
      | some cl =>
          .ok ("\n-------------------------------\nDRAM :" ++ print_energy (l.zip cl)
            ++ "\n-------------------------------")

/-- `PrintOutput._format_output` (lines 49-60).  In the non-raw branch the
header formats `result.duration_conf` with a float format spec, which
raises `TypeError` when the field is `None`. -/
def format_output (raw : Bool) (r : Result) : Except PyError String :=
  if raw then .ok (reprStr r)
  else
    match r.duration_conf with
    | none => .error .typeError
    | some dc =>
        (pkgSection r).bind (fun ps =>
          (dramSection r).bind (fun ds =>
            .ok ("Label : " ++ r.label ++ "\nBegin : " ++ ctimeStr r.timestamp
              ++ "\nDuration : " ++ fmtSci r.duration ++ " s (+-" ++ fmtSci dc ++ ")"
              ++ ps ++ ds)))

/-- `PrintOutput.add` (lines 62-68): prints the formatted record; it
succeeds exactly when formatting does, and the `.ok` payload is the
printed text. -/
def printOutputAdd (raw : Bool) (r : Result) : Except PyError String :=
  format_output raw r

/-- Whether a modelled call returned normally. -/
def exceptIsOk (e : Except PyError Result) : Bool :=
  match e with
  | .ok _ => true
  | .error _ => false

/-- Sample table of a 3-run confidence aggregation with run durations
1, 2, 3 ns and constant per-socket readings: the Duration column has mean
2 and sample standard deviation 1. -/
def c1Table : SampleTable :=
  ⟨1, 1, [(1, [5], [7]), (2, [5], [7]), (3, [5], [7])]⟩

/-- A session whose snapshots are fully supported, used as concrete input. -/
def sdW : SessionData :=
  ⟨0, [1, 2], 10, [5, 7]⟩

/-- Session data stream for a 2-run confidence aggregation: durations
1 and 2 ns, package delta `[5]`, DRAM delta `[7]` every run. -/
def c10Runs : ℕ → SessionData :=
  fun i => ⟨0, [0, 0], 1 + (i : ℤ), [5, 7]⟩

/-- The measurement object after a successful `create_result` on a fresh
session labelled `f` with zero data and a zero duration confidence. -/
def mW : Measurement :=
  ⟨"f", some (some ⟨"f", 0, 0, none, none, some 0, none, none⟩)⟩

/-- A record whose confidence fields are all absent, as the global policy
intends to produce. -/
def c6Record : Result :=
  ⟨"noconf", 0, 0, none, none, none, none, none⟩

/-- A record with an absent package series but a present DRAM series and
present confidence fields. -/
def c6OkRecord : Result :=
  ⟨"ok", 0, 0, none, some [5], some 1, none, some [2]⟩

/-- The import environment of a host without pandas. -/
def availNoPandas : List String :=
  ["functools", "time", "pyRAPL", "pyRAPL.outputs"]

theorem foldl_or_nonneg (l : List ℤ) (b : Bool) :
    l.foldl (fun acc x => acc || decide (0 ≤ x)) b = (b || l.any (fun x => decide (0 ≤ x))) := by
  induction l generalizing b with
  | nil => simp
  | cons a l ih => simp [List.foldl_cons, ih, Bool.or_assoc]

theorem empty_energy_result_eq_any (l : List ℤ) :
    empty_energy_result l = l.any (fun x => decide (0 ≤ x)) := by
  simpa using foldl_or_nonneg l false

theorem sentinelFilter_eq_none_iff (l : List ℤ) :
    sentinelFilter l = none ↔ ∀ x ∈ l, x < 0 := by
  unfold sentinelFilter
  rcases h : empty_energy_result l with _ | _
  · simp only [h, if_neg Bool.false_ne_true]
    rw [empty_energy_result_eq_any] at h
    constructor
    · intro _ x hx
      by_contra hlt
      have : l.any (fun x => decide (0 ≤ x)) = true :=
        List.any_eq_true.mpr ⟨x, hx, by simpa using le_of_not_lt hlt⟩
      rw [h] at this
      exact Bool.false_ne_true this
    · intro _
      trivial
  · simp only [h, if_pos rfl]
    rw [empty_energy_result_eq_any] at h
    rcases List.any_eq_true.mp h with ⟨x, hx, hx0⟩
    constructor
    · intro habs
      exact absurd habs (by simp)
    · intro hall
      exact absurd (hall x hx) (by simpa using hx0)

theorem sentinelFilter_eq_some_self (l : List ℤ) (h : ∃ x ∈ l, 0 ≤ x) :
    sentinelFilter l = some l := by
  unfold sentinelFilter
  rcases h with ⟨x, hx, hx0⟩
  have : empty_energy_result l = true := by
    rw [empty_energy_result_eq_any]
    exact List.any_eq_true.mpr ⟨x, hx, by simpa using hx0⟩
  rw [if_pos this]

/-- C3: for every domain series produced from an energy delta, the series
is replaced by an absent value if and only if every element is negative;
with at least one non-negative element the series is returned completely
unchanged, individual negative entries included. -/
theorem claimC3_sentinel_rule (l : List ℤ) :
    (sentinelFilter l = none ↔ ∀ x ∈ l, x < 0)
    ∧ ((∃ x ∈ l, 0 ≤ x) → sentinelFilter l = some l) :=
  ⟨sentinelFilter_eq_none_iff l, sentinelFilter_eq_some_self l⟩

/-- C3 witness: the mixed series `[-1, 5]` is kept as-is. -/
theorem claimC3_witness : sentinelFilter [-1, 5] = some [-1, 5] :=
  (claimC3_sentinel_rule [-1, 5]).2 (by decide)

theorem evenIdx_length : ∀ (l : List α), (evenIdx l).length = (l.length + 1) / 2
  | [] => by simp [evenIdx]
  | [_] => by simp [evenIdx]
  | _ :: _ :: rest => by
      simp only [evenIdx, List.length_cons, evenIdx_length rest]
      omega

theorem evenIdx_getD : ∀ (l : List α) (k : ℕ) (d : α),
    (evenIdx l).getD k d = l.getD (2 * k) d
  | [], k, d => by simp [evenIdx]
  | [a], k, d => by
      cases k with
      | zero => rfl
      | succ k =>
          have h2 : 2 * (k + 1) = 2 * k + 1 + 1 := by ring
          simp [evenIdx, h2, List.getD_cons_succ, List.getD_nil]
  | a :: b :: rest, k, d => by
      cases k with
      | zero => rfl
      | succ k =>
          have h2 : 2 * (k + 1) = 2 * k + 1 + 1 := by ring
          simp only [evenIdx, h2, List.getD_cons_succ, evenIdx_getD rest k d]

theorem oddIdx_length (l : List α) : (oddIdx l).length = l.length / 2 := by
  cases l with
  | nil => simp [oddIdx]
  | cons a rest =>
      simp only [oddIdx, evenIdx_length rest, List.length_cons]

theorem oddIdx_getD (l : List α) (k : ℕ) (d : α) :
    (oddIdx l).getD k d = l.getD (2 * k + 1) d := by
  cases l with
  | nil => simp [oddIdx]
  | cons a rest =>
      simp only [oddIdx, evenIdx_getD rest k d, List.getD_cons_succ]

theorem energyDelta_length (b e : List ℤ) :
    (energyDelta b e).length = min e.length b.length := by
  simp [energyDelta]

theorem energyDelta_getD (b e : List ℤ) (k : ℕ) (hk : k < (energyDelta b e).length) :
    (energyDelta b e).getD k 0 = e.getD k 0 - b.getD k 0 := by
  rw [energyDelta_length] at hk
  have hke : k < e.length := lt_of_lt_of_le hk (min_le_left _ _)
  have hkb : k < b.length := lt_of_lt_of_le hk (min_le_right _ _)
  have hkz : k < (energyDelta b e).length := by rw [energyDelta_length]; exact hk
  rw [List.getD_eq_getElem _ _ hkz, List.getD_eq_getElem _ _ hke, List.getD_eq_getElem _ _ hkb]
  simp [energyDelta]

/-- C4: `end()` returns the triple of the timestamp difference and the
sentinel-filtered even-indexed (package) and odd-indexed (DRAM)
sub-sequences of the elementwise delta `snapEnd - snapBegin`; the delta,
the sub-sequences and their lengths are characterised element by element. -/
theorem claimC4_end_decomposition (sd : SessionData) :
    (measurementEnd sd).1 = sd.tsEnd - sd.tsBegin
    ∧ (measurementEnd sd).2.1 = sentinelFilter (evenIdx (energyDelta sd.snapBegin sd.snapEnd))
    ∧ (measurementEnd sd).2.2 = sentinelFilter (oddIdx (energyDelta sd.snapBegin sd.snapEnd))
    ∧ (energyDelta sd.snapBegin sd.snapEnd).length = min sd.snapEnd.length sd.snapBegin.length
    ∧ (∀ k, k < (energyDelta sd.snapBegin sd.snapEnd).length →
        (energyDelta sd.snapBegin sd.snapEnd).getD k 0
          = sd.snapEnd.getD k 0 - sd.snapBegin.getD k 0)
    ∧ (evenIdx (energyDelta sd.snapBegin sd.snapEnd)).length
        = ((energyDelta sd.snapBegin sd.snapEnd).length + 1) / 2
    ∧ (oddIdx (energyDelta sd.snapBegin sd.snapEnd)).length
        = (energyDelta sd.snapBegin sd.snapEnd).length / 2
    ∧ (∀ k d, (evenIdx (energyDelta sd.snapBegin sd.snapEnd)).getD k d
        = (energyDelta sd.snapBegin sd.snapEnd).getD (2 * k) d)
    ∧ (∀ k d, (oddIdx (energyDelta sd.snapBegin sd.snapEnd)).getD k d
        = (energyDelta sd.snapBegin sd.snapEnd).getD (2 * k + 1) d) :=
  ⟨rfl, rfl, rfl, energyDelta_length _ _, energyDelta_getD _ _,
    evenIdx_length _, oddIdx_length _,
    fun k d => evenIdx_getD _ k d, fun k d => oddIdx_getD _ k d⟩

/-- C4 witness: on snapshots `[1, 2] → [5, 7]` the first delta entry is
`5 - 1`. -/
theorem claimC4_witness :
    (energyDelta sdW.snapBegin sdW.snapEnd).getD 0 0
      = sdW.snapEnd.getD 0 0 - sdW.snapBegin.getD 0 0 :=
  (claimC4_end_decomposition sdW).2.2.2.2.1 0 (by decide)

theorem getD_map_div (l : List ℚ) (n : ℚ) :
    ∀ i, (l.map (fun x => x / n)).getD i 0 = l.getD i 0 / n := by
  induction l with
  | nil => intro i; simp
  | cons a l ih =>
      intro i
      cases i with
      | zero => rfl
      | succ i => simpa using ih i

/-- C5: the scaling `record / n` divides the duration and every element of
the pkg and dram series by `n`, and passes label, timestamp and all
confidence fields through unchanged. -/
theorem claimC5_resultDiv_scaling (r : Result) (n : ℚ) (_h : 0 < n) :
    (resultDiv r n).label = r.label
    ∧ (resultDiv r n).timestamp = r.timestamp
    ∧ (resultDiv r n).duration = r.duration / n
    ∧ (resultDiv r n).duration_conf = r.duration_conf
    ∧ (resultDiv r n).pkg_conf = r.pkg_conf
    ∧ (resultDiv r n).dram_conf = r.dram_conf
    ∧ (r.pkg = none → (resultDiv r n).pkg = none)
    ∧ (∀ l, r.pkg = some l → ∃ l2, (resultDiv r n).pkg = some l2
        ∧ l2.length = l.length ∧ ∀ i, l2.getD i 0 = l.getD i 0 / n)
    ∧ (r.dram = none → (resultDiv r n).dram = none)
    ∧ (∀ l, r.dram = some l → ∃ l2, (resultDiv r n).dram = some l2
        ∧ l2.length = l.length ∧ ∀ i, l2.getD i 0 = l.getD i 0 / n) := by
  refine ⟨rfl, rfl, rfl, rfl, rfl, rfl, ?_, ?_, ?_, ?_⟩
  · intro hp; simp [resultDiv, hp]
  · intro l hp
    exact ⟨l.map (fun x => x / n), by simp [resultDiv, hp], by simp, getD_map_div l n⟩
  · intro hd; simp [resultDiv, hd]
  · intro l hd
    exact ⟨l.map (fun x => x / n), by simp [resultDiv, hd], by simp, getD_map_div l n⟩

/-- C5 witness: scaling a concrete record by 2. -/
theorem claimC5_witness :
    (resultDiv ⟨"w", 3, 8, some [4], none, some 5, none, none⟩ 2).duration = 8 / 2
    ∧ (resultDiv ⟨"w", 3, 8, some [4], none, some 5, none, none⟩ 2).duration_conf = some 5 :=
  ⟨(claimC5_resultDiv_scaling ⟨"w", 3, 8, some [4], none, some 5, none, none⟩ 2 (by norm_num)).2.2.1,
    (claimC5_resultDiv_scaling ⟨"w", 3, 8, some [4], none, some 5, none, none⟩ 2 (by norm_num)).2.2.2.1⟩

/-- C8: accessing `result` on a freshly constructed session raises an
`AttributeError` rather than returning a default; once `create_result`
has succeeded, the same access returns exactly the stored record. -/
theorem claimC8_result_access (label : String) (m m2 : Measurement) (ts dur : ℚ)
    (pkg dram : Option (List ℚ)) (dc : Option ℚ) (pc dcf : Option (List ℚ))
    (h : m.createResult ts dur pkg dram dc pc dcf = .ok m2) :
    (∃ msg, (Measurement.make label).resultProp = .error (.attributeError msg))
    ∧ ∃ r, create_result m.label ts dur pkg dram dc pc dcf = .ok r
        ∧ m2.resultProp = .ok r := by
  refine ⟨⟨"Measurement object has no attribute _results", rfl⟩, ?_⟩
  unfold Measurement.createResult at h
  rcases hcr : create_result m.label ts dur pkg dram dc pc dcf with e | r
  · rw [hcr] at h
    exact absurd h (by simp [Except.map])
  · rw [hcr] at h
    refine ⟨r, rfl, ?_⟩
    have hm2 : m2 = { m with resultsAttr := some (some r) } := by
      simpa [Except.map] using h.symm
    rw [hm2]
    rfl

/-- C8 witness: the fresh session errors, and after a concrete successful
`create_result` the stored record is returned. -/
theorem claimC8_witness :
    (∃ msg, (Measurement.make "g").resultProp = .error (.attributeError msg))
    ∧ ∃ r, create_result "f" 0 0 none none (some 0) none none = .ok r
        ∧ mW.resultProp = .ok r :=
  claimC8_result_access "g" (Measurement.make "f") mW 0 0 none none (some 0) none none
    (by simp [Measurement.make, Measurement.createResult, create_result, Except.map, mW])

/-- C7: an aggregation policy string outside `{global, confidence}` makes
`wrapper_measure` fail with the `ValueError`, and the outcome is
independent of every measurement input, so no measurement work, record or
sink invocation can be observed. -/
theorem claimC7_unknown_policy (s s2 : ℚ → ℚ) (a a2 : Bool) (method : String)
    (n n2 : ℕ) (label label2 : String) (runs runs2 : ℕ → SessionData)
    (h1 : method ≠ "global") (h2 : method ≠ "confidence") :
    wrapper_measure s a method n label runs = .error (.valueError "Unknown measurement method.")
    ∧ wrapper_measure s a method n label runs = wrapper_measure s2 a2 method n2 label2 runs2 := by
  unfold wrapper_measure
  rw [if_neg h1, if_neg h2, if_neg h1, if_neg h2]
  exact ⟨rfl, rfl⟩

/-- C7 witness: the policy `bogus` with two unrelated measurement worlds. -/
theorem claimC7_witness :
    wrapper_measure (fun q => q) true "bogus" 3 "f" (fun _ => ⟨0, [], 0, []⟩)
      = .error (.valueError "Unknown measurement method.")
    ∧ wrapper_measure (fun q => q) true "bogus" 3 "f" (fun _ => ⟨0, [], 0, []⟩)
      = wrapper_measure (fun q => q + 1) false "bogus" 7 "g" (fun _ => ⟨1, [2], 3, [4]⟩) :=
  claimC7_unknown_policy (fun q => q) (fun q => q + 1) true false "bogus" 3 7 "f" "g"
    (fun _ => ⟨0, [], 0, []⟩) (fun _ => ⟨1, [2], 3, [4]⟩) (by decide) (by decide)

/-- C2 (code evaluation): under the global policy `create_result` is called
with `duration_conf` left at `None`, whose division by `1000000000` raises
`TypeError`, so every global-policy call fails before any record is
divided by `n` or handed to the sink. -/
theorem claimC2_global_type_error (s : ℚ → ℚ) (a : Bool) (n : ℕ) (label : String)
    (runs : ℕ → SessionData) :
    wrapper_measure s a "global" n label runs = .error .typeError := by
  unfold wrapper_measure
  rw [if_pos rfl]
  rfl

/-- C1 (code evaluation): on a confidence sample with Duration column
`[1, 2, 3]`, the first component of the `_compute_stats` tuple — the value
`create_result` receives as the record's duration — is the sample standard
deviation 1, not the column mean 2 claimed by the spec. -/
theorem claimC1_duration_gets_std (s : ℚ → ℚ) (h : s 1 = 1) :
    (compute_stats s c1Table).1 = 1
    ∧ seriesMean (colDuration c1Table) = 2
    ∧ (compute_stats s c1Table).1 ≠ seriesMean (colDuration c1Table) := by
  have hm : seriesMean (colDuration c1Table) = 2 := by
    norm_num [seriesMean, colDuration, c1Table]
  have hm2 : seriesMean ([1, 2, 3] : List ℚ) = 2 := by
    norm_num [seriesMean]
  have hv : sampleVar (colDuration c1Table) = 1 := by
    norm_num [sampleVar, colDuration, c1Table, hm2]
  have h1 : (compute_stats s c1Table).1 = s (sampleVar (colDuration c1Table)) := rfl
  rw [h1, hv, h, hm]
  norm_num

/-- C1 witness: the divergence instantiated at the identity square root. -/
theorem claimC1_witness :
    (compute_stats (fun q => q) c1Table).1 = 1
    ∧ seriesMean (colDuration c1Table) = 2
    ∧ (compute_stats (fun q => q) c1Table).1 ≠ seriesMean (colDuration c1Table) :=
  claimC1_duration_gets_std (fun q => q) rfl

/-- Whether a modelled formatting call returned normally. -/
def strIsOk (e : Except PyError String) : Bool :=
  match e with
  | .ok _ => true
  | .error _ => false

/-- C6 counterexample: on a record whose confidence fields are absent —
exactly what the spec says the global policy produces — the reference
print sink's `add` raises `TypeError` while formatting
`result.duration_conf`, so `add` does not succeed on every record with
absent confidence fields. -/
theorem claimC6_counterexample : printOutputAdd false c6Record = .error .typeError :=
  rfl

/-- C6 amended: `add` succeeds on every record whose confidence fields
are present alongside their series (duration_conf present, and a present
pkg/dram series accompanied by its confidence series), tolerating absent
pkg/dram series by omitting that domain's section of the output
entirely; when `duration_conf` is absent, or a series is present with its
confidence series absent, `add` raises `TypeError`. -/
theorem claimC6_amended (r : Result)
    (h1 : r.duration_conf ≠ none)
    (h2 : r.pkg = none ∨ r.pkg_conf ≠ none)
    (h3 : r.dram = none ∨ r.dram_conf ≠ none) :
    strIsOk (printOutputAdd false r) = true
    ∧ (r.pkg = none → pkgSection r = .ok "")
    ∧ (r.dram = none → dramSection r = .ok "") := by
  have hps : ∃ ps, pkgSection r = .ok ps := by
    rcases hp : r.pkg with _ | l
    · exact ⟨"", by simp only [pkgSection, hp]⟩
    · rcases h2 with hp2 | hpc
      · rw [hp] at hp2; exact absurd hp2 (by simp)
      · rcases hpc2 : r.pkg_conf with _ | cl
        · exact absurd hpc2 hpc
        · exact ⟨"\n-------------------------------\nPKG :" ++ print_energy (l.zip cl),
            by simp only [pkgSection, hp, hpc2]⟩
  have hds : ∃ ds, dramSection r = .ok ds := by
    rcases hd : r.dram with _ | l
    · exact ⟨"", by simp only [dramSection, hd]⟩
    · rcases h3 with hd2 | hdc
      · rw [hd] at hd2; exact absurd hd2 (by simp)
      · rcases hdc2 : r.dram_conf with _ | cl
        · exact absurd hdc2 hdc
        · exact ⟨"\n-------------------------------\nDRAM :" ++ print_energy (l.zip cl)
              ++ "\n-------------------------------",
            by simp only [dramSection, hd, hdc2]⟩
  rcases hdcv : r.duration_conf with _ | dc
  · exact absurd hdcv h1
  rcases hps with ⟨ps, hps⟩
  rcases hds with ⟨ds, hds⟩
  refine ⟨?_, ?_, ?_⟩
  · simp [printOutputAdd, format_output, hdcv, hps, hds, Except.bind, strIsOk]
  · intro hp; simp only [pkgSection, hp]
  · intro hd; simp only [dramSection, hd]

/-- C6 witness: a record with pkg absent, dram present, confidences
present formats successfully and its PKG section is empty. -/
theorem claimC6_witness :
    strIsOk (printOutputAdd false c6OkRecord) = true
    ∧ (c6OkRecord.pkg = none → pkgSection c6OkRecord = .ok "")
    ∧ (c6OkRecord.dram = none → dramSection c6OkRecord = .ok "") :=
  claimC6_amended c6OkRecord (by decide) (by decide) (by decide)

/-- C9 counterexample: with every capability present except pandas, even a
global-policy call through the measurement module fails, because line 24
imports pandas unconditionally at module load — global-policy use does
depend on the statistical capability. -/
theorem claimC9_counterexample :
    runViaModule availNoPandas (fun q => q) "global" 1 "f" (fun _ => ⟨0, [], 0, []⟩)
      = .error (.importError "No module named pandas") :=
  rfl

/-- C9 amended: the tabular/statistical capability is an unconditional
dependency of the measurement module itself (a module-level import), so
its absence makes any use fail at import time, global policy included;
when the module could load but the capability is gone at call time, the
confidence branch re-checks it and fails immediately with the descriptive
error, with no silent downgrade to the global policy. -/
theorem claimC9_amended (available : List String) (s : ℚ → ℚ) (method : String)
    (n : ℕ) (label : String) (runs : ℕ → SessionData)
    (h1 : "functools" ∈ available) (h2 : "time" ∈ available)
    (h3 : "pandas" ∉ available) :
    runViaModule available s method n label runs
      = .error (.importError "No module named pandas")
    ∧ wrapper_measure s false "confidence" n label runs
      = .error (.importError "You need Pandas to use this method") := by
  constructor
  · have him : importMeasurementModule available
        = .error (.importError ("No module named " ++ "pandas")) := by
      simp [importMeasurementModule, module_imports, List.find?, h1, h2, h3]
    simp [runViaModule, him, Except.bind]
  · unfold wrapper_measure
    rw [if_neg (by decide), if_pos rfl, if_neg (by simp)]

/-- C9 witness: the amended statement at the concrete pandas-free host. -/
theorem claimC9_witness :
    runViaModule availNoPandas (fun q => q) "confidence" 2 "g" (fun _ => ⟨0, [], 0, []⟩)
      = .error (.importError "No module named pandas")
    ∧ wrapper_measure (fun q => q) false "confidence" 2 "g" (fun _ => ⟨0, [], 0, []⟩)
      = .error (.importError "You need Pandas to use this method") :=
  claimC9_amended availNoPandas (fun q => q) "confidence" 2 "g" (fun _ => ⟨0, [], 0, []⟩)
    (by decide) (by decide) (by decide)

theorem buildRows_ok_mem (ncols : ℕ) (runs : ℕ → SessionData) :
    ∀ (idxs : List ℕ) (rows : List (ℤ × List ℤ × List ℤ)),
      buildRows ncols runs idxs = .ok rows →
      ∀ i ∈ idxs, ∃ row, buildRow ncols (measurementEnd (runs i)) = .ok row := by
  intro idxs
  induction idxs with
  | nil => intro rows _ i hi; exact absurd hi (List.not_mem_nil i)
  | cons j rest ih =>
      intro rows h i hi
      unfold buildRows at h
      rcases hj : buildRow ncols (measurementEnd (runs j)) with e | row
      · rw [hj] at h
        exact absurd h (by simp [Except.bind])
      · rcases hrest : buildRows ncols runs rest with e | rows2
        · rw [hj, hrest] at h
          exact absurd h (by simp [Except.bind])
        · rcases List.mem_cons.mp hi with rfl | hirest
          · exact ⟨row, hj⟩
          · exact ih rows2 hrest i hirest

/-- C10: the confidence aggregation returns normally only when every run's
package series and DRAM series are present; a run whose delta was replaced
by the sentinel rule's absent value makes the sample-table construction
raise, so no record is produced. -/
theorem claimC10_confidence_needs_support (s : ℚ → ℚ) (number : ℕ) (label : String)
    (runs : ℕ → SessionData)
    (h : exceptIsOk (wrapper_measure s true "confidence" number label runs) = true) :
    ∀ i, i < number →
      (measurementEnd (runs i)).2.1 ≠ none ∧ (measurementEnd (runs i)).2.2 ≠ none := by
  have hw : wrapper_measure s true "confidence" number label runs
      = confidenceBranch s number label runs := by
    unfold wrapper_measure
    rw [if_neg (by decide), if_pos rfl, if_pos rfl]
  rw [hw] at h
  unfold confidenceBranch at h
  by_cases h0 : number = 0
  · rw [if_pos h0] at h
    exact absurd h (by simp [exceptIsOk])
  rw [if_neg h0] at h
  intro i hi
  rcases hp0 : (measurementEnd (runs 0)).2.1 with _ | p0
  · rcases hd0 : (measurementEnd (runs 0)).2.2 with _ | d0 <;>
      simp [hp0, hd0, exceptIsOk] at h
  rcases hd0 : (measurementEnd (runs 0)).2.2 with _ | d0
  · simp [hp0, hd0, exceptIsOk] at h
  simp only [hp0, hd0] at h
  rcases hbr : buildRows (1 + p0.length + d0.length) runs (List.range number) with e | rows
  · rw [hbr] at h
    exact absurd h (by simp [exceptIsOk, Except.bind])
  have hmem := buildRows_ok_mem (1 + p0.length + d0.length) runs (List.range number) rows hbr
    i (List.mem_range.mpr hi)
  rcases hmem with ⟨row, hrow⟩
  rcases hme : measurementEnd (runs i) with ⟨dur, pkgO, dramO⟩
  rw [hme] at hrow
  cases pkgO with
  | none =>
      exfalso
      cases dramO with
      | none => simp [buildRow] at hrow
      | some d => simp [buildRow] at hrow
  | some p =>
      cases dramO with
      | none => exact absurd hrow (by simp [buildRow])
      | some d => exact ⟨by simp, by simp⟩

/-- C10 witness: a 2-run confidence aggregation with fully supported
domains returns normally, and its runs indeed have both series present. -/
theorem claimC10_witness :
    (measurementEnd (c10Runs 0)).2.1 ≠ none ∧ (measurementEnd (c10Runs 0)).2.2 ≠ none :=
  claimC10_confidence_needs_support (fun q => q) 2 "f" c10Runs (by rfl) 0 (by decide)
